import Mathlib

/-
  Verification of the notification-triage engine of the slackoptimizer
  repository against its natural-language specification.

  The definitions below are a shallow embedding of the TypeScript source:
  - src/src/types/backend.ts                (data model)
  - src/src/controllers/SlackEventController.ts
      (isInQuietHours, shouldSendDM, handleNotification, handleChannelMessage)
  - src/src/services/AIBackendService.ts
      (fallback classification, y/n cleanup loop, determineCategory,
       classifyMessage, getUser / createUser / updateUserSettings,
       getDefaultUserSettings, BaseService.withRetry)

  Conventions of the embedding:
  - JavaScript `Date` comparisons in isInQuietHours reduce, at the
    hour/minute granularity the code sets, to comparisons of
    minutes-since-midnight; the current wall-clock time is passed
    explicitly as `nowMin : Nat`.
  - `Math.floor(Math.random() * 10)` is passed explicitly as `r : Nat`
    with `r < 10`.
  - Remote HTTP calls are passed as explicit oracle functions or as an
    `Except String` outcome; thrown JS errors are `Except.error`.
  - The in-memory `Map` of users is a function `String → Option BackendUser`.
-/

namespace SlackOptimizer

/-! ## Data model (src/src/types/backend.ts) -/

inductive NotificationLevel
  | all
  | mentions
  | important
  | none
deriving DecidableEq

/-- Runtime category values produced by AIBackendService.determineCategory. -/
inductive Category
  | urgent
  | important
  | mention
  | spam
  | general
deriving DecidableEq

inductive Priority
  | high
  | medium
  | low
deriving DecidableEq

structure QuietHours where
  enabled : Bool
  start_time : String
  end_time : String
  timezone : String
deriving DecidableEq

structure Filters where
  spam_detection : Bool
  duplicate_detection : Bool
  importance_threshold : Nat
deriving DecidableEq

structure DeliveryPreferences where
  urgent_via_dm : Bool
  important_via_dm : Bool
  mentions_via_dm : Bool
  feed_enabled : Bool
deriving DecidableEq

structure ChannelSetting where
  enabled : Bool
  priority : Priority
  custom_rules : List String
deriving DecidableEq

structure UserSettings where
  notification_level : NotificationLevel
  keywords : List String
  channels : List (String × ChannelSetting)
  quiet_hours : QuietHours
  filters : Filters
  delivery_preferences : DeliveryPreferences
deriving DecidableEq

structure BackendUser where
  slack_user_id : String
  team_id : String
  email : String
  created_at : String
  updated_at : String
  settings : UserSettings
deriving DecidableEq

structure ClassificationResult where
  should_notify : Bool
  confidence : Int
  reasoning : String
  category : Category
  priority : Priority
  tags : List String
deriving DecidableEq

/-- Per-message delivery decision of the event controller: whether the
message was stored in the notification feed and whether a DM was sent. -/
structure DeliveryDecision where
  store_in_feed : Bool
  send_dm : Bool
deriving DecidableEq

/-! ## Quiet hours (SlackEventController.isInQuietHours, lines 435-453) -/

/-- JS `settings.start_time || '22:00'`: the empty string is the only
falsy string value, so it falls back to the default. -/
def timeOr (s dflt : String) : String :=
  if s = "" then dflt else s

/-- Characters before the first ':' (first component of `split(':')`). -/
def takeUntilColon : List Char → List Char
  | [] => []
  | c :: t => if c = ':' then [] else c :: takeUntilColon t

/-- Characters after the first ':' (remainder handed to the second
component of `split(':')`). -/
def dropThroughColon : List Char → List Char
  | [] => []
  | c :: t => if c = ':' then t else dropThroughColon t

def numOfCharsAux : List Char → Nat → Option Nat
  | [], acc => some acc
  | c :: t, acc => if c.isDigit then numOfCharsAux t (acc * 10 + (c.toNat - 48)) else none

/-- JS `Number` on a plain digit string (the shape the quiet-hours times
take); a non-digit input yields NaN in JS, collapsed to 0 here, which only
differs from the source on malformed time strings. -/
def numOfChars (cs : List Char) : Nat := (numOfCharsAux cs 0).getD 0

/-- `'HH:MM'.split(':').map(Number)` followed by `setHours(h, m, 0)`,
reduced to minutes since midnight. -/
def parseMinutes (s : String) : Nat :=
  numOfChars (takeUntilColon s.data) * 60 +
    numOfChars (takeUntilColon (dropThroughColon s.data))

/-- SlackEventController.isInQuietHours: returns false when quiet hours are
disabled or the category is urgent; otherwise compares the current time
against the window with the literal source formula
`now >= start || now < end` (no branching on whether the window wraps
midnight). -/
def isInQuietHours (user : BackendUser) (result : ClassificationResult)
    (nowMin : Nat) : Bool :=
  if user.settings.quiet_hours.enabled = false then false
  else if result.category = Category.urgent then false
  else
    let startMin := parseMinutes (timeOr user.settings.quiet_hours.start_time "22:00")
    let endMin := parseMinutes (timeOr user.settings.quiet_hours.end_time "08:00")
    decide (startMin ≤ nowMin) || decide (nowMin < endMin)

/-! ## DM policy (SlackEventController.shouldSendDM, lines 214-240) -/

def shouldSendDM (result : ClassificationResult) (delivery : DeliveryPreferences)
    (user : BackendUser) (nowMin : Nat) : Bool :=
  if isInQuietHours user result nowMin then false
  else
    match result.category with
    | Category.urgent => delivery.urgent_via_dm
    | Category.important => delivery.important_via_dm
    | Category.mention => delivery.mentions_via_dm
    | _ => decide (result.priority = Priority.high) && delivery.urgent_via_dm

/-! ## Notification handling (SlackEventController lines 107-126, 182-212) -/

/-- handleNotification: stores in the feed exactly when
`delivery_preferences.feed_enabled`, then decides the DM. In the typed
data model `delivery_preferences` is always present, so the
`|| getDefaultDeliveryPreferences()` fallback of the source is the
identity here. -/
def handleNotification (user : BackendUser) (result : ClassificationResult)
    (nowMin : Nat) : DeliveryDecision :=
  let delivery := user.settings.delivery_preferences
  { store_in_feed := delivery.feed_enabled
    send_dm := shouldSendDM result delivery user nowMin }

/-- Decision portion of handleChannelMessage: `handleNotification` is
invoked only when `result.should_notify` is true; otherwise the message is
only logged as filtered and neither stored nor DM-ed. -/
def handleChannelMessage (user : BackendUser) (result : ClassificationResult)
    (nowMin : Nat) : DeliveryDecision :=
  if result.should_notify then handleNotification user result nowMin
  else { store_in_feed := false, send_dm := false }

/-! ## Default settings (AIBackendService.getDefaultUserSettings, lines 433-456) -/

def getDefaultUserSettings : UserSettings :=
  { notification_level := NotificationLevel.important
    keywords := ["urgent", "deadline", "meeting", "help"]
    channels := []
    quiet_hours :=
      { enabled := false
        start_time := "22:00"
        end_time := "08:00"
        timezone := "UTC" }
    filters :=
      { spam_detection := true
        duplicate_detection := true
        importance_threshold := 70 }
    delivery_preferences :=
      { urgent_via_dm := true
        important_via_dm := true
        mentions_via_dm := false
        feed_enabled := true } }

/-! ## Concrete fixtures used by witnesses and counterexamples -/

def sampleUser : BackendUser :=
  { slack_user_id := "U1"
    team_id := "T1"
    email := "U1@slack.local"
    created_at := "t0"
    updated_at := "t0"
    settings := getDefaultUserSettings }

/-- A user with an enabled, non-wrapping 09:00-17:00 quiet-hours window. -/
def dayWindowUser : BackendUser :=
  { sampleUser with
    settings :=
      { getDefaultUserSettings with
        quiet_hours :=
          { enabled := true
            start_time := "09:00"
            end_time := "17:00"
            timezone := "UTC" } } }

def socialResult : ClassificationResult :=
  { should_notify := true
    confidence := 75
    reasoning := "casual conversation"
    category := Category.general
    priority := Priority.low
    tags := ["general"] }

def coffeeResult : ClassificationResult :=
  { should_notify := false
    confidence := 75
    reasoning := "casual conversation"
    category := Category.general
    priority := Priority.low
    tags := ["general", "social"] }

/-! ## Claim C1 -/

/-- Claim C1 (code bug): the source computes `now >= start || now < end`
without branching on whether the window wraps midnight, so for any enabled
non-wrapping window (start ≤ end as minutes) and any non-urgent category,
`isInQuietHours` is true at EVERY time of day — in particular also outside
the window, contradicting the claim that a 09:00-17:00 window is quiet only
between 09:00 and 17:00. -/
theorem isInQuietHours_nonwrapping_window_bug
    (user : BackendUser) (result : ClassificationResult) (nowMin : Nat)
    (hen : user.settings.quiet_hours.enabled = true)
    (hcat : result.category ≠ Category.urgent)
    (hwin : parseMinutes (timeOr user.settings.quiet_hours.start_time "22:00") ≤
      parseMinutes (timeOr user.settings.quiet_hours.end_time "08:00")) :
    isInQuietHours user result nowMin = true := by
  simp [isInQuietHours, hen, hcat]
  omega

/-- At 08:00, outside an enabled 09:00-17:00 window, the code still reports
quiet hours for a non-urgent message. -/
theorem isInQuietHours_nonwrapping_window_bug_witness :
    isInQuietHours dayWindowUser socialResult 480 = true :=
  isInQuietHours_nonwrapping_window_bug dayWindowUser socialResult 480
    rfl (by decide) (by decide)

/-! ## Claim C2 -/

/-- Claim C2: when the quiet-hours predicate holds the DM is suppressed
regardless of the delivery flags; otherwise the DM follows the per-category
delivery preference (with the high-priority-and-urgent-flag rule for other
categories); and for category urgent the DM equals `urgent_via_dm`
regardless of the quiet-hours configuration and current time. -/
theorem shouldSendDM_policy (result : ClassificationResult)
    (delivery : DeliveryPreferences) (user : BackendUser) (nowMin : Nat) :
    (isInQuietHours user result nowMin = true →
      shouldSendDM result delivery user nowMin = false)
    ∧ (isInQuietHours user result nowMin = false →
      shouldSendDM result delivery user nowMin =
        match result.category with
        | Category.urgent => delivery.urgent_via_dm
        | Category.important => delivery.important_via_dm
        | Category.mention => delivery.mentions_via_dm
        | _ => decide (result.priority = Priority.high) && delivery.urgent_via_dm)
    ∧ (result.category = Category.urgent →
      shouldSendDM result delivery user nowMin = delivery.urgent_via_dm) := by
  refine ⟨?_, ?_, ?_⟩
  · intro h
    simp [shouldSendDM, h]
  · intro h
    simp [shouldSendDM, h]
  · intro h
    have hq : isInQuietHours user result nowMin = false := by
      simp [isInQuietHours, h]
    simp [shouldSendDM, hq, h]

/-- Concrete instance: urgent message during an enabled quiet-hours window
still follows `urgent_via_dm` (true for the defaults). -/
theorem shouldSendDM_policy_witness :
    shouldSendDM
      { socialResult with category := Category.urgent, priority := Priority.high }
      getDefaultUserSettings.delivery_preferences dayWindowUser 600 = true :=
  (shouldSendDM_policy
    { socialResult with category := Category.urgent, priority := Priority.high }
    getDefaultUserSettings.delivery_preferences dayWindowUser 600).2.2 rfl

/-! ## Claim C3 -/

/-- Claim C3 is false on the code: feed storage happens only inside
`handleNotification`, which `handleChannelMessage` invokes only when
`should_notify` is true. With the feed enabled and `should_notify = false`
(the spec's Scenario C message), nothing is stored in the feed. -/
theorem store_in_feed_requires_should_notify_cex :
    sampleUser.settings.delivery_preferences.feed_enabled = true
    ∧ coffeeResult.should_notify = false
    ∧ (handleChannelMessage sampleUser coffeeResult 600).store_in_feed = false := by
  refine ⟨rfl, rfl, rfl⟩

/-- Claim C3 (amended): `store_in_feed` is true exactly when
`should_notify` is true and the feed is enabled; in particular it is
independent of quiet hours and of the DM decision, but messages with
`should_notify = false` are never stored. -/
theorem store_in_feed_eq_notify_and_enabled (user : BackendUser)
    (result : ClassificationResult) (nowMin : Nat) :
    (handleChannelMessage user result nowMin).store_in_feed =
      (result.should_notify && user.settings.delivery_preferences.feed_enabled) := by
  cases hr : result.should_notify <;>
    simp [handleChannelMessage, handleNotification, hr]

/-! ## JS string primitives used by the classifier
(`toLowerCase`, `includes`) -/

/-- JS `String.prototype.includes` on character lists: the needle occurs
as a contiguous substring. -/
def containsSub (needle : List Char) : List Char → Bool
  | [] => needle.isPrefixOf []
  | a :: t => needle.isPrefixOf (a :: t) || containsSub needle t

/-- JS `hay.includes(needle)`. -/
def jsIncludes (hay needle : String) : Bool :=
  containsSub needle.data hay.data

/-- JS `toLowerCase` (ASCII range, which covers every keyword the source
matches against). -/
def jsToLower (s : String) : String :=
  String.mk (s.data.map Char.toLower)

theorem containsSub_correct (needle hay : List Char) :
    containsSub needle hay = true ↔ needle <:+: hay := by
  induction hay with
  | nil => simp [containsSub]
  | cons a t ih => simp [containsSub, ih, List.infix_cons_iff]

theorem jsIncludes_correct (hay needle : String) :
    jsIncludes hay needle = true ↔ needle.data <:+: hay.data :=
  containsSub_correct needle.data hay.data

/-! ## Rule-based fallbacks of classifyMessageWithAI
(AIBackendService.ts lines 104-113 and 151-156) -/

/-- Fallback used when `GMI_API_KEY` is not configured: keyword scan over
the lowercased message content, plus the check whether the user's stated
preference text contains "all". -/
def fallbackClassifyNoKey (content userDescription : String) : Bool :=
  let lower := jsToLower content
  jsIncludes lower "urgent" ||
    jsIncludes lower "help" ||
    jsIncludes lower "important" ||
    jsIncludes (jsToLower userDescription) "all"

/-- Fallback used when the remote classifier call throws: keyword scan
only, no user-description check. -/
def fallbackClassifyOnError (content : String) : Bool :=
  let lower := jsToLower content
  jsIncludes lower "urgent" ||
    jsIncludes lower "help" ||
    jsIncludes lower "important"

/-! ## Claim C4 -/

/-- Claim C4 is false as stated: "emergency" and "asap" belong to the
claimed urgency vocabulary, but the fallback classifiers match neither
(their vocabulary is exactly urgent / help / important). -/
theorem fallback_vocabulary_cex :
    fallbackClassifyNoKey "emergency" "" = false
    ∧ fallbackClassifyNoKey "asap" "" = false
    ∧ fallbackClassifyOnError "emergency" = false := by
  refine ⟨by decide, by decide, by decide⟩

/-- Claim C4 (amended): the unconfigured-key fallback returns true exactly
when the lowercased message contains "urgent", "help" or "important", or
the lowercased preference text contains "all"; the error-path fallback
checks only the three message keywords. Matching is case-insensitive
substring containment. -/
theorem fallback_classifier_characterization (content userDescription : String) :
    (fallbackClassifyNoKey content userDescription = true ↔
      ("urgent".data <:+: (jsToLower content).data
        ∨ "help".data <:+: (jsToLower content).data
        ∨ "important".data <:+: (jsToLower content).data
        ∨ "all".data <:+: (jsToLower userDescription).data))
    ∧ (fallbackClassifyOnError content = true ↔
      ("urgent".data <:+: (jsToLower content).data
        ∨ "help".data <:+: (jsToLower content).data
        ∨ "important".data <:+: (jsToLower content).data)) := by
  constructor
  · simp [fallbackClassifyNoKey, jsIncludes_correct, or_assoc]
  · simp [fallbackClassifyOnError, jsIncludes_correct, or_assoc]

/-! ## y/n cleanup loop of classifyMessageWithAI (lines 139-149)

The remote response and the secondary extract-y/n oracle are modelled by
the initial string and a pure function `clean`; the source calls
`getCleanedResponse` at most once per loop iteration. The second component
counts how many cleanup calls were made. -/

def cleanupLoop (clean : String → String) : Nat → String → Bool × Nat
  | 0, _ => (false, 0)
  | Nat.succ n, r =>
    if r = "y" then (true, 0)
    else if r = "n" then (false, 0)
    else
      let p := cleanupLoop clean n (clean r)
      (p.1, p.2 + 1)

/-- The loop body of classifyMessageWithAI runs `for (let i = 0; i < 3; ...)`
and returns false when no iteration sees exactly "y" or "n". -/
def resolveAIDecision (clean : String → String) (firstResponse : String) :
    Bool × Nat :=
  cleanupLoop clean 3 firstResponse

theorem cleanupLoop_count_le (clean : String → String) (n : Nat) :
    ∀ r, (cleanupLoop clean n r).2 ≤ n := by
  induction n with
  | zero =>
    intro r
    simp [cleanupLoop]
  | succ n ih =>
    intro r
    by_cases h1 : r = "y"
    · simp [cleanupLoop, h1]
    · by_cases h2 : r = "n"
      · simp [cleanupLoop, h1, h2]
      · simp only [cleanupLoop, h1, h2, if_false]
        exact Nat.succ_le_succ (ih (clean r))

/-! ## Claim C5 -/

/-- Claim C5: the cleanup loop re-submits to the extract-y/n call at most 3
times, and when neither the original response nor any cleaned response in
the loop is exactly "y" or "n", classification resolves to
`should_notify = false`. (The model is a total function: in the source,
errors of the cleanup call are caught inside getCleanedResponse and the
whole path is wrapped in try/catch, so no exception reaches the caller.) -/
theorem cleanup_loop_failsafe (clean : String → String) (r : String) :
    (resolveAIDecision clean r).2 ≤ 3
    ∧ ((r ≠ "y" ∧ r ≠ "n"
        ∧ clean r ≠ "y" ∧ clean r ≠ "n"
        ∧ clean (clean r) ≠ "y" ∧ clean (clean r) ≠ "n") →
      (resolveAIDecision clean r).1 = false) := by
  constructor
  · exact cleanupLoop_count_le clean 3 r
  · rintro ⟨h1, h2, h3, h4, h5, h6⟩
    simp [resolveAIDecision, cleanupLoop, h1, h2, h3, h4, h5, h6]

/-- Concrete instance: an oracle that keeps answering free text makes the
engine default to no-notify after at most 3 cleanup calls. -/
theorem cleanup_loop_failsafe_witness :
    (resolveAIDecision (fun _ => "maybe, depends") "I think the user wants this").1
      = false :=
  (cleanup_loop_failsafe (fun _ => "maybe, depends")
      "I think the user wants this").2
    (by refine ⟨by decide, by decide, by decide, by decide, by decide, by decide⟩)

/-! ## BaseService.withRetry (AIBackendService.ts lines 537-560)

The operation is modelled as a function from the attempt number (1-based,
as in the source loop) to an `Except` outcome; thrown errors are
`Except.error` strings. The embedding returns the final outcome, the
number of attempts made, and the list of delays (in ms) awaited between
attempts, in order. -/

def withRetryAux {A : Type} (op : Nat → Except String A) (base : Nat) :
    Nat → Nat → Except String A × Nat × List Nat
  | 0, attempt => (op attempt, 1, [])
  | Nat.succ n, attempt =>
    match op attempt with
    | Except.ok a => (Except.ok a, 1, [])
    | Except.error _ =>
      let p := withRetryAux op base n (attempt + 1)
      (p.1, p.2.1 + 1, base * attempt :: p.2.2)

/-- BaseService.withRetry: attempts run from 1 to maxRetries; a failure on
the final attempt re-throws the last error without a further delay; a
failure on an earlier attempt waits `delay * attempt` ms. With
`maxRetries = 0` the loop body never runs and the placeholder error is
thrown. -/
def withRetry {A : Type} (op : Nat → Except String A)
    (maxRetries : Nat := 3) (base : Nat := 1000) :
    Except String A × Nat × List Nat :=
  if maxRetries = 0 then (Except.error "Operation failed", 0, [])
  else withRetryAux op base (maxRetries - 1) 1

theorem withRetryAux_all_fail {A : Type} (e : Nat → String) (base : Nat) :
    ∀ (n a : Nat),
      withRetryAux (A := A) (fun i => Except.error (e i)) base n a =
        (Except.error (e (a + n)), n + 1,
          (List.range' a n).map (fun i => base * i)) := by
  intro n
  induction n with
  | zero =>
    intro a
    simp [withRetryAux]
  | succ n ih =>
    intro a
    have hshift : a + 1 + n = a + (n + 1) := by omega
    simp [withRetryAux, ih (a + 1), List.range'_succ, hshift]

theorem pairwise_le_range' (n : Nat) :
    ∀ a : Nat, List.Pairwise (fun x y => x ≤ y) (List.range' a n) := by
  induction n with
  | zero =>
    intro a
    simp
  | succ n ih =>
    intro a
    rw [List.range'_succ]
    refine List.Pairwise.cons ?_ (ih (a + 1))
    intro b hb
    obtain ⟨i, _, rfl⟩ := List.mem_range'.mp hb
    omega

theorem chain_le_mul_range' (base a n : Nat) :
    List.Chain' (fun x y => x ≤ y)
      ((List.range' a n).map (fun i => base * i)) := by
  apply List.Pairwise.chain'
  refine List.Pairwise.map _ ?_ (pairwise_le_range' n a)
  intro x y h
  exact Nat.mul_le_mul (Nat.le_refl base) h

/-! ## Claim C6 -/

/-- Claim C6: an operation failing on every attempt is attempted exactly
`maxRetries` times; the delays awaited between attempts are
`base * 1, base * 2, …, base * (maxRetries - 1)` — a non-decreasing
sequence — and the overall outcome is the error of the final attempt. -/
theorem withRetry_permanent_failure {A : Type} (e : Nat → String)
    (maxRetries base : Nat) (h : 1 ≤ maxRetries) :
    withRetry (A := A) (fun i => Except.error (e i)) maxRetries base =
      (Except.error (e maxRetries), maxRetries,
        (List.range' 1 (maxRetries - 1)).map (fun i => base * i))
    ∧ List.Chain' (fun x y => x ≤ y)
        ((List.range' 1 (maxRetries - 1)).map (fun i => base * i)) := by
  refine ⟨?_, chain_le_mul_range' base 1 (maxRetries - 1)⟩
  obtain ⟨k, rfl⟩ : ∃ k, maxRetries = k + 1 := ⟨maxRetries - 1, by omega⟩
  have hk : 1 + k = k + 1 := by omega
  simp [withRetry, withRetryAux_all_fail e base k 1, hk]

/-- Concrete instance at the source defaults (maxRetries 3, base delay
1000 ms): 3 attempts, delays 1000 then 2000. -/
theorem withRetry_permanent_failure_witness :
    withRetry (A := Unit) (fun _ => Except.error "ECONNREFUSED") 3 1000 =
      (Except.error "ECONNREFUSED", 3, [1000, 2000]) := by
  have h :=
    (withRetry_permanent_failure (A := Unit) (fun _ => "ECONNREFUSED")
      3 1000 (by omega)).1
  exact h.trans rfl

/-! ## Category / priority / confidence derivation
(AIBackendService.determineCategory lines 208-225, classifyMessage
lines 313-328, generateReasoning lines 227-253, generateTags
lines 458-471) -/

def hasUrgentKeyword (lower : String) : Bool :=
  jsIncludes lower "urgent" || jsIncludes lower "emergency" || jsIncludes lower "asap"

def hasMentionKeyword (lower : String) : Bool :=
  jsIncludes lower "@" || jsIncludes lower "mention"

def hasImportantKeyword (lower : String) : Bool :=
  jsIncludes lower "important" || jsIncludes lower "deadline" || jsIncludes lower "meeting"

def hasSpamKeyword (lower : String) : Bool :=
  jsIncludes lower "spam" || jsIncludes lower "advertisement" || jsIncludes lower "promotion"

/-- AIBackendService.determineCategory: keyword scan over the lowercased
text in the source's if-order; with no keyword match the source returns
`shouldNotify ? 'important' : 'general'`. -/
def determineCategory (text : String) (shouldNotify : Bool) : Category :=
  let lower := jsToLower text
  if hasUrgentKeyword lower then Category.urgent
  else if hasMentionKeyword lower then Category.mention
  else if hasImportantKeyword lower then Category.important
  else if hasSpamKeyword lower then Category.spam
  else if shouldNotify then Category.important
  else Category.general

/-- Priority derivation inside classifyMessage (lines 315-317). -/
def priorityFor (category : Category) : Priority :=
  if category = Category.urgent then Priority.high
  else if category = Category.important ∨ category = Category.mention then Priority.medium
  else Priority.low

/-- Confidence baseline assignment inside classifyMessage (lines 320-324):
base 75, overridden per category. -/
def baseConfidence (category : Category) : Int :=
  if category = Category.urgent then 95
  else if category = Category.mention then 90
  else if category = Category.important then 85
  else if category = Category.spam then 88
  else 75

/-- Lines 327-328: `confidence += Math.floor(Math.random() * 10) - 5`
(the random draw `r < 10` is a parameter) then clamp via
`Math.max(60, Math.min(99, confidence))`. -/
def deriveConfidence (category : Category) (r : Nat) : Int :=
  max 60 (min 99 (baseConfidence category + ((r : Int) - 5)))

theorem deriveConfidence_spec (category : Category) (r : Nat) (h : r < 10) :
    deriveConfidence category r = baseConfidence category + ((r : Int) - 5)
    ∧ 60 ≤ deriveConfidence category r
    ∧ deriveConfidence category r ≤ 99 := by
  have hb1 : 75 ≤ baseConfidence category := by
    cases category <;> decide
  have hb2 : baseConfidence category ≤ 95 := by
    cases category <;> decide
  unfold deriveConfidence
  rw [max_def, min_def]
  split_ifs <;> omega

def categoryName : Category → String
  | Category.urgent => "urgent"
  | Category.important => "important"
  | Category.mention => "mention"
  | Category.spam => "spam"
  | Category.general => "general"

def generateReasoning (category : Category) (shouldNotify : Bool) : String :=
  match category with
  | Category.urgent =>
    if shouldNotify then
      "AI detected urgent keywords and context indicating immediate attention required."
    else
      "Despite urgent indicators, AI determined the message context suggests it\x27s already resolved or not actionable."
  | Category.mention =>
    if shouldNotify then
      "AI detected you were mentioned or directly addressed in this message."
    else
      "AI determined the mention is casual or informational only."
  | Category.important =>
    if shouldNotify then
      "AI classified this as important based on content analysis and your preferences."
    else
      "AI determined this is informational but doesn\x27t require immediate action."
  | Category.spam => "AI detected promotional or spam-like content patterns."
  | Category.general =>
    if shouldNotify then
      "AI analysis suggests this message is relevant based on your notification preferences."
    else
      "AI classified this as casual conversation not requiring notification."

/-- JS `[...new Set(tags)]`: removes duplicates keeping first occurrences. -/
def distinctAux : List String → List String → List String
  | [], _ => []
  | x :: t, seen =>
    if x ∈ seen then distinctAux t seen else x :: distinctAux t (x :: seen)

def jsSetDedup (l : List String) : List String := distinctAux l []

def generateTags (text : String) (category : Category) : List String :=
  let lower := jsToLower text
  jsSetDedup
    ([categoryName category]
      ++ (if jsIncludes lower "meeting" then ["meeting"] else [])
      ++ (if jsIncludes lower "deadline" then ["deadline"] else [])
      ++ (if jsIncludes lower "urgent" || jsIncludes lower "asap" then ["urgent"] else [])
      ++ (if jsIncludes lower "help" || jsIncludes lower "assist" then ["help-request"] else [])
      ++ (if jsIncludes lower "question" || jsIncludes lower "?" then ["question"] else [])
      ++ (if jsIncludes lower "bug" || jsIncludes lower "error" || jsIncludes lower "issue" then ["technical"] else [])
      ++ (if jsIncludes lower "lunch" || jsIncludes lower "coffee" || jsIncludes lower "social" then ["social"] else []))

/-! ## Claim C7 -/

/-- Claim C7 is false as stated: for a text matching no scan keyword the
claimed fallthrough category is `general`, but with `shouldNotify = true`
the source returns `important`. -/
theorem determineCategory_default_cex :
    determineCategory "hello there" true = Category.important
    ∧ Category.important ≠ Category.general := by
  refine ⟨by decide, by decide⟩

/-- Claim C7 (amended): the keyword scan assigns the category with first
match winning in the order urgent > mention > important > spam; with no
keyword match the category is `important` when should-notify is true and
`general` otherwise; priority is derived from the category
(urgent→high, important/mention→medium, else→low); and the confidence is
the per-category baseline (urgent 95, mention 90, important 85, spam 88,
else 75) plus the jitter `r - 5 ∈ [-5, 4]`, on which the clamp to
`[60, 99]` is the identity, so the confidence always lies in `[60, 99]`. -/
theorem classification_derivation (text : String) (sn : Bool) (r : Nat)
    (hr : r < 10) :
    (hasUrgentKeyword (jsToLower text) = true →
      determineCategory text sn = Category.urgent)
    ∧ (hasUrgentKeyword (jsToLower text) = false →
        hasMentionKeyword (jsToLower text) = true →
      determineCategory text sn = Category.mention)
    ∧ (hasUrgentKeyword (jsToLower text) = false →
        hasMentionKeyword (jsToLower text) = false →
        hasImportantKeyword (jsToLower text) = true →
      determineCategory text sn = Category.important)
    ∧ (hasUrgentKeyword (jsToLower text) = false →
        hasMentionKeyword (jsToLower text) = false →
        hasImportantKeyword (jsToLower text) = false →
        hasSpamKeyword (jsToLower text) = true →
      determineCategory text sn = Category.spam)
    ∧ (hasUrgentKeyword (jsToLower text) = false →
        hasMentionKeyword (jsToLower text) = false →
        hasImportantKeyword (jsToLower text) = false →
        hasSpamKeyword (jsToLower text) = false →
      determineCategory text sn =
        (if sn then Category.important else Category.general))
    ∧ priorityFor (determineCategory text sn) =
        (match determineCategory text sn with
          | Category.urgent => Priority.high
          | Category.important => Priority.medium
          | Category.mention => Priority.medium
          | _ => Priority.low)
    ∧ deriveConfidence (determineCategory text sn) r =
        baseConfidence (determineCategory text sn) + ((r : Int) - 5)
    ∧ 60 ≤ deriveConfidence (determineCategory text sn) r
    ∧ deriveConfidence (determineCategory text sn) r ≤ 99 := by
  refine ⟨?_, ?_, ?_, ?_, ?_, ?_,
    (deriveConfidence_spec _ r hr).1,
    (deriveConfidence_spec _ r hr).2.1,
    (deriveConfidence_spec _ r hr).2.2⟩
  · intro h1
    simp [determineCategory, h1]
  · intro h1 h2
    simp [determineCategory, h1, h2]
  · intro h1 h2 h3
    simp [determineCategory, h1, h2, h3]
  · intro h1 h2 h3 h4
    simp [determineCategory, h1, h2, h3, h4]
  · intro h1 h2 h3 h4
    simp [determineCategory, h1, h2, h3, h4]
  · cases hc : determineCategory text sn <;> simp [priorityFor]

/-- Concrete instance: the derived confidence of the keyword-free text is
within the guaranteed range. -/
theorem classification_derivation_witness :
    60 ≤ deriveConfidence (determineCategory "hello there" true) 0 :=
  (classification_derivation "hello there" true 0 (by omega)).2.2.2.2.2.2.2.1

/-! ## classifyMessage (AIBackendService.ts lines 303-355) -/

/-- The literal record returned by the catch-branch of classifyMessage. -/
def errorFallbackResult : ClassificationResult :=
  { should_notify := false
    confidence := 50
    reasoning := "Error occurred during AI classification, defaulting to no notification for safety."
    category := Category.general
    priority := Priority.low
    tags := ["error"] }

/-- classifyMessage: the outcome of the awaited classifyMessageWithAI call
(and everything else inside the try-block) is modelled by `aiOutcome`;
any thrown error lands in the catch-branch, producing the fixed fallback
record. On success the shared derivation produces the result. -/
def classifyMessage (aiOutcome : Except String Bool) (text : String)
    (r : Nat) : ClassificationResult :=
  match aiOutcome with
  | Except.error _ => errorFallbackResult
  | Except.ok shouldNotify =>
    let category := determineCategory text shouldNotify
    { should_notify := shouldNotify
      confidence := deriveConfidence category r
      reasoning := generateReasoning category shouldNotify
      category := category
      priority := priorityFor category
      tags := generateTags text category }

/-! ## Claim C10 -/

/-- Claim C10: classifyMessage is total — every internal throw is caught
and mapped to the fixed fallback record (should_notify false, confidence
50, category general, priority low, fixed reasoning, tags ["error"]);
that fallback confidence 50 sits below the 60-99 range the successful
derivation guarantees. -/
theorem classifyMessage_total_fallback (text : String) (r : Nat)
    (hr : r < 10) :
    (∀ e, classifyMessage (Except.error e) text r = errorFallbackResult)
    ∧ errorFallbackResult.should_notify = false
    ∧ errorFallbackResult.confidence = 50
    ∧ errorFallbackResult.category = Category.general
    ∧ errorFallbackResult.priority = Priority.low
    ∧ errorFallbackResult.tags = ["error"]
    ∧ (∀ e, (classifyMessage (Except.error e) text r).confidence < 60)
    ∧ (∀ b, 60 ≤ (classifyMessage (Except.ok b) text r).confidence
        ∧ (classifyMessage (Except.ok b) text r).confidence ≤ 99) := by
  refine ⟨fun e => rfl, rfl, rfl, rfl, rfl, rfl, fun e => by norm_num [classifyMessage, errorFallbackResult], ?_⟩
  intro b
  exact ⟨(deriveConfidence_spec _ r hr).2.1, (deriveConfidence_spec _ r hr).2.2⟩

/-- Concrete instance: a thrown classifier error yields the fallback
record with confidence 50. -/
theorem classifyMessage_total_fallback_witness :
    classifyMessage (Except.error "network timeout") "urgent: prod is down" 3
      = errorFallbackResult :=
  (classifyMessage_total_fallback "urgent: prod is down" 3 (by omega)).1
    "network timeout"

/-! ## User settings store
(AIBackendService.createUser / getUser / updateUserSettings,
lines 256-301; the in-memory `Map` keyed by `userId-teamId` is a
function from key to optional user, and `new Date().toISOString()` is
passed explicitly as `now`.) -/

def UserStore := String → Option BackendUser

def userKey (uid tid : String) : String := uid ++ "-" ++ tid

/-- AIBackendService.createUser: builds the user with the default
settings and stores it under its key. -/
def createUser (store : UserStore) (uid tid email now : String) :
    BackendUser × UserStore :=
  let user : BackendUser :=
    { slack_user_id := uid
      team_id := tid
      email := email
      created_at := now
      updated_at := now
      settings := getDefaultUserSettings }
  (user, fun k => if k = userKey uid tid then some user else store k)

/-- AIBackendService.getUser: returns the stored user, or auto-creates one
(with email `uid@slack.local`) on a miss. -/
def getUser (store : UserStore) (uid tid now : String) :
    BackendUser × UserStore :=
  match store (userKey uid tid) with
  | some user => (user, store)
  | none => createUser store uid tid (uid ++ "@slack.local") now

/-- `Partial<UserSettings>`: a top-level field group is either absent or
replaces the whole group. -/
structure PartialUserSettings where
  notification_level : Option NotificationLevel := none
  keywords : Option (List String) := none
  channels : Option (List (String × ChannelSetting)) := none
  quiet_hours : Option QuietHours := none
  filters : Option Filters := none
  delivery_preferences : Option DeliveryPreferences := none
deriving DecidableEq

/-- JS `{ ...user.settings, ...settings }`: present groups of the partial
win, absent groups keep the existing value. -/
def mergeSettings (old : UserSettings) (p : PartialUserSettings) : UserSettings :=
  { notification_level := p.notification_level.getD old.notification_level
    keywords := p.keywords.getD old.keywords
    channels := p.channels.getD old.channels
    quiet_hours := p.quiet_hours.getD old.quiet_hours
    filters := p.filters.getD old.filters
    delivery_preferences := p.delivery_preferences.getD old.delivery_preferences }

/-- AIBackendService.updateUserSettings: fetches (or auto-creates) the
user, shallow-merges the partial into its settings, stores the updated
user and returns the merged settings. -/
def updateUserSettings (store : UserStore) (uid tid now : String)
    (p : PartialUserSettings) : UserSettings × UserStore :=
  let g := getUser store uid tid now
  let merged := mergeSettings g.1.settings p
  let updated : BackendUser := { g.1 with settings := merged, updated_at := now }
  (merged, fun k => if k = userKey uid tid then some updated else g.2 k)

/-! ## Claim C8 -/

/-- Claim C8: getUser returns the stored user unchanged when the key is
present; on a miss it synthesizes a user carrying exactly the documented
default settings and stores it under the key before returning it — so a
settings value is always produced, and the defaults are as documented
(notification_level important, quiet hours disabled with the 22:00-08:00
window pre-filled, importance_threshold 70, DM delivery enabled for
urgent and important, feed enabled). -/
theorem getUser_getOrCreate_spec (store : UserStore) (uid tid now : String) :
    (∀ u0, store (userKey uid tid) = some u0 →
      (getUser store uid tid now).1 = u0 ∧ (getUser store uid tid now).2 = store)
    ∧ (store (userKey uid tid) = none →
      (getUser store uid tid now).1.settings = getDefaultUserSettings
      ∧ (getUser store uid tid now).2 (userKey uid tid) =
          some (getUser store uid tid now).1)
    ∧ getDefaultUserSettings.notification_level = NotificationLevel.important
    ∧ getDefaultUserSettings.quiet_hours.enabled = false
    ∧ getDefaultUserSettings.quiet_hours.start_time = "22:00"
    ∧ getDefaultUserSettings.quiet_hours.end_time = "08:00"
    ∧ getDefaultUserSettings.filters.importance_threshold = 70
    ∧ getDefaultUserSettings.delivery_preferences.urgent_via_dm = true
    ∧ getDefaultUserSettings.delivery_preferences.important_via_dm = true
    ∧ getDefaultUserSettings.delivery_preferences.feed_enabled = true := by
  refine ⟨?_, ?_, rfl, rfl, rfl, rfl, rfl, rfl, rfl, rfl⟩
  · intro u0 h
    simp [getUser, h]
  · intro h
    simp [getUser, h, createUser]

/-- Concrete instance: a lookup on an empty store returns the default
settings. -/
theorem getUser_getOrCreate_spec_witness :
    (getUser (fun _ => none) "U1" "T1" "t0").1.settings = getDefaultUserSettings :=
  ((getUser_getOrCreate_spec (fun _ => none) "U1" "T1" "t0").2.1 rfl).1

/-! ## Claim C9 -/

/-- Claim C9: for an existing user, updateUserSettings returns the shallow
merge of the stored settings with the partial: every group named in the
partial is replaced wholesale, every group not named is unchanged, and
the merged settings are what gets stored under the key. -/
theorem updateUserSettings_shallow_merge (store : UserStore)
    (uid tid now : String) (p : PartialUserSettings) (u0 : BackendUser)
    (h : store (userKey uid tid) = some u0) :
    (updateUserSettings store uid tid now p).1 = mergeSettings u0.settings p
    ∧ (p.notification_level = none →
        (updateUserSettings store uid tid now p).1.notification_level =
          u0.settings.notification_level)
    ∧ (p.keywords = none →
        (updateUserSettings store uid tid now p).1.keywords = u0.settings.keywords)
    ∧ (p.channels = none →
        (updateUserSettings store uid tid now p).1.channels = u0.settings.channels)
    ∧ (p.quiet_hours = none →
        (updateUserSettings store uid tid now p).1.quiet_hours =
          u0.settings.quiet_hours)
    ∧ (p.filters = none →
        (updateUserSettings store uid tid now p).1.filters = u0.settings.filters)
    ∧ (p.delivery_preferences = none →
        (updateUserSettings store uid tid now p).1.delivery_preferences =
          u0.settings.delivery_preferences)
    ∧ (∀ nl, p.notification_level = some nl →
        (updateUserSettings store uid tid now p).1.notification_level = nl)
    ∧ (∀ ks, p.keywords = some ks →
        (updateUserSettings store uid tid now p).1.keywords = ks)
    ∧ (∀ qh, p.quiet_hours = some qh →
        (updateUserSettings store uid tid now p).1.quiet_hours = qh)
    ∧ (∀ dp, p.delivery_preferences = some dp →
        (updateUserSettings store uid tid now p).1.delivery_preferences = dp)
    ∧ (updateUserSettings store uid tid now p).2 (userKey uid tid) =
        some { u0 with settings := mergeSettings u0.settings p, updated_at := now } := by
  have hg : getUser store uid tid now = (u0, store) := by
    simp [getUser, h]
  have h1 : (updateUserSettings store uid tid now p).1 = mergeSettings u0.settings p := by
    simp [updateUserSettings, hg]
  refine ⟨h1, ?_, ?_, ?_, ?_, ?_, ?_, ?_, ?_, ?_, ?_, ?_⟩
  · intro he
    rw [h1]
    simp [mergeSettings, he]
  · intro he
    rw [h1]
    simp [mergeSettings, he]
  · intro he
    rw [h1]
    simp [mergeSettings, he]
  · intro he
    rw [h1]
    simp [mergeSettings, he]
  · intro he
    rw [h1]
    simp [mergeSettings, he]
  · intro he
    rw [h1]
    simp [mergeSettings, he]
  · intro nl he
    rw [h1]
    simp [mergeSettings, he]
  · intro ks he
    rw [h1]
    simp [mergeSettings, he]
  · intro qh he
    rw [h1]
    simp [mergeSettings, he]
  · intro dp he
    rw [h1]
    simp [mergeSettings, he]
  · simp [updateUserSettings, hg]

/-- A store holding exactly the sample user. -/
def oneUserStore : UserStore :=
  fun k => if k = userKey "U1" "T1" then some sampleUser else none

/-- Concrete instance: updating only the notification level leaves the
keywords group untouched. -/
theorem updateUserSettings_shallow_merge_witness :
    (updateUserSettings oneUserStore "U1" "T1" "t1"
        { notification_level := some NotificationLevel.all }).1.keywords =
      sampleUser.settings.keywords :=
  ((updateUserSettings_shallow_merge oneUserStore "U1" "T1" "t1"
      { notification_level := some NotificationLevel.all } sampleUser
      (by decide)).2.2.1 rfl)

end SlackOptimizer
